import Mathlib

/-!
Shallow embedding of the tenant-lifecycle script-job orchestrator of the
sbt-aws repository.

Embedded source files:
  * `lambda-script-job.ts` (the `LambdaScriptJob` construct): the Step
    Functions state machine built by `createProvisioningStateMachine` and
    the inline Lambda function built by `createLambdaFunction`;
  * `tenant-lifecycle-lambda-script-jobs.ts`: the `Provisioning` and
    `Deprovisioning` specializations;
  * `docker/tenantprov/index.js`: the container-based script handler.

The CDK code is construction-time configuration; what we embed is the
runtime behaviour of the state machine that configuration determines:

  * `startLambda` (a `LambdaInvoke` task) has a payload built from
    JsonPath references `$.detail.<name>` for every declared incoming
    string variable, and `States.JsonToString($.detail.<name>)` for every
    declared incoming JSON variable.  A JsonPath reference that does not
    resolve raises `States.Runtime`, which by the Step Functions error
    model is NOT caught by a `Catch` clause, even one on `States.ALL`;
    the execution simply fails.  Hence a missing declared variable kills
    the execution before the Lambda is invoked.
  * the `addCatch(notifyFailureEventBridgeTask, errors: [States.ALL])`
    clause routes a failed Lambda invocation (the function throwing /
    rejecting, or timing out) to the failure-notify task.  A Lambda that
    RETURNS a value - any value, including one of the shape
    `\x7berror: ...\x7d` - is a successful invocation and flows to
    `notifySuccessEventBridgeTask` via `.next`.
  * `notifySuccessEventBridgeTask` publishes detail
    `\x7b[jobIdentifierKey]: $.detail.<jobIdentifierKey>, jobOutput:
    \x7b<name>: $.startLambda.Payload.output.<name> ...\x7d\x7d`;
    `notifyFailureEventBridgeTask` publishes detail
    `\x7b[jobIdentifierKey]: $.detail.<jobIdentifierKey>, jobOutput:
    jobFailureStatus\x7d`.  Again every JsonPath reference that fails to
    resolve raises an uncatchable `States.Runtime` and no event goes out.
-/

/-- JSON values, as carried in event payloads and Lambda results. -/
inductive JsonVal where
  | str : String → JsonVal
  | num : Int → JsonVal
  | bool : Bool → JsonVal
  | null : JsonVal
  | arr : List JsonVal → JsonVal
  | obj : List (String × JsonVal) → JsonVal
deriving Repr

/-- Lookup of a key in a key-value list (JavaScript object field access). -/
def lookupKey {β : Type} (k : String) : List (String × β) → Option β
  | [] => none
  | (k', v) :: rest => if k' = k then some v else lookupKey k rest

/-- Membership of a key in a key-value list. -/
def containsKey {β : Type} (k : String) (l : List (String × β)) : Bool :=
  (lookupKey k l).isSome

/-- Assignment `o[k] = v` on a JavaScript object represented as a key-value
list (keys unique, as in any JavaScript object): overwrite the entry for
`k` in place, or append a new one. -/
def setKey {β : Type} (k : String) (v : β) : List (String × β) →
    List (String × β)
  | [] => [(k, v)]
  | (k', w) :: rest =>
      if k' = k then (k, v) :: rest else (k', w) :: setKey k v rest

mutual

/-- Serialization of a JSON value to a string, as the
`States.JsonToString` intrinsic function performs it (string escaping of
special characters is elided; no embedded claim depends on it). -/
def serializeJson : JsonVal → String
  | .str s => "\"" ++ s ++ "\""
  | .num n => toString n
  | .bool b => toString b
  | .null => "null"
  | .arr xs => "[" ++ serializeElems xs ++ "]"
  | .obj fs => "\x7b" ++ serializeFields fs ++ "\x7d"

/-- Serialization of the element list of a JSON array. -/
def serializeElems : List JsonVal → String
  | [] => ""
  | [x] => serializeJson x
  | x :: y :: rest => serializeJson x ++ "," ++ serializeElems (y :: rest)

/-- Serialization of the field list of a JSON object. -/
def serializeFields : List (String × JsonVal) → String
  | [] => ""
  | [(k, v)] => "\"" ++ k ++ "\":" ++ serializeJson v
  | (k, v) :: p :: rest =>
      "\"" ++ k ++ "\":" ++ serializeJson v ++ "," ++ serializeFields (p :: rest)

end

/-- Field access on a JSON value: defined exactly on objects having the
field, as a JsonPath step `.k` resolves. -/
def JsonVal.getField : JsonVal → String → Option JsonVal
  | .obj fields, k => lookupKey k fields
  | _, _ => none

/-- Configuration of one `LambdaScriptJob` instance (the `ScriptJobProps`
interface fields the runtime behaviour depends on).  Event kinds
(`DetailType` values) are carried as strings; `supportedEvents` is the
event-manager registry mapping an event kind to its source identifier. -/
structure ScriptJobProps where
  jobIdentifierKey : String
  script : String
  environmentStringVariablesFromIncomingEvent : List String
  environmentJSONVariablesFromIncomingEvent : List String
  environmentVariablesToOutgoingEvent : List String
  scriptEnvironmentVariables : List (String × String)
  jobFailureStatus : List (String × JsonVal)
  incomingEvent : String
  outgoingEventSuccess : String
  outgoingEventFailure : String
  supportedEvents : List (String × String)

/-- Result of one Lambda invocation as the `LambdaInvoke` task observes
it: the function resolved with a payload value, or the invocation failed
(the function threw / rejected / timed out) with some error text. -/
inductive LambdaResult where
  | resolved : JsonVal → LambdaResult
  | rejected : String → LambdaResult

/-- One event published to the bus by an `EventBridgePutEvents` task. -/
structure OutgoingEvent where
  detailType : String
  source : Option String
  detail : List (String × JsonVal)

/-- Outcome of one state-machine execution: whether the Lambda backend
was invoked, the list of events published to the bus, and whether the
execution itself failed (an uncaught error such as `States.Runtime`). -/
structure ExecOutcome where
  backendInvoked : Bool
  published : List OutgoingEvent
  executionFailed : Bool

/-- Resolution of one declared incoming string variable into the
`startLambda` payload: `JsonPath.stringAt ($.detail.<name>)`. -/
def addStringVar (detail : List (String × JsonVal))
    (acc : List (String × JsonVal)) (name : String) :
    Option (List (String × JsonVal)) :=
  (lookupKey name detail).map (fun v => setKey name v acc)

/-- Resolution of one declared incoming JSON variable into the
`startLambda` payload: `JsonPath.jsonToString (JsonPath.objectAt
($.detail.<name>))`. -/
def addJsonVar (detail : List (String × JsonVal))
    (acc : List (String × JsonVal)) (name : String) :
    Option (List (String × JsonVal)) :=
  (lookupKey name detail).map
    (fun v => setKey name (JsonVal.str (serializeJson v)) acc)

/-- The `environmentVariablesOverride` object, resolved against the
incoming event at execution time: the payload handed to the
`startLambda` task.  `none` models a `States.Runtime` parameter-resolution
failure (some declared name is absent from `detail`), which is not
catchable and fails the execution before the Lambda runs. -/
def buildPayload (props : ScriptJobProps) (detail : List (String × JsonVal)) :
    Option (List (String × JsonVal)) := do
  let acc ← props.environmentStringVariablesFromIncomingEvent.foldlM
      (addStringVar detail) []
  props.environmentJSONVariablesFromIncomingEvent.foldlM (addJsonVar detail) acc

/-- Resolution of one exported output variable for the success event:
`JsonPath.stringAt ($.startLambda.Payload.output.<name>)`. -/
def lookupOutputVar (payload : JsonVal) (name : String) : Option JsonVal := do
  let out ← payload.getField "output"
  out.getField name

/-- Step in building the `jobOutput` object of the success event. -/
def addOutputVar (payload : JsonVal) (acc : List (String × JsonVal))
    (name : String) : Option (List (String × JsonVal)) :=
  (lookupOutputVar payload name).map (fun v => setKey name v acc)

/-- The `exportedVarObj` detail of `notifySuccessEventBridgeTask`,
resolved at execution time: the job identifier passed through from
`$.detail.<jobIdentifierKey>`, and `jobOutput` holding every name of
`environmentVariablesToOutgoingEvent` read from
`$.startLambda.Payload.output.<name>`.  `none` models a `States.Runtime`
resolution failure of any of these paths. -/
def buildSuccessDetail (props : ScriptJobProps)
    (detail : List (String × JsonVal)) (payload : JsonVal) :
    Option (List (String × JsonVal)) := do
  let idVal ← lookupKey props.jobIdentifierKey detail
  let jobOut ← props.environmentVariablesToOutgoingEvent.foldlM
      (addOutputVar payload) []
  pure (setKey "jobOutput" (JsonVal.obj jobOut)
    (setKey props.jobIdentifierKey idVal []))

/-- The detail of `notifyFailureEventBridgeTask`, resolved at execution
time: the job identifier passed through, and `jobOutput` holding the
fixed `jobFailureStatus` object. -/
def buildFailureDetail (props : ScriptJobProps)
    (detail : List (String × JsonVal)) :
    Option (List (String × JsonVal)) := do
  let idVal ← lookupKey props.jobIdentifierKey detail
  pure (setKey "jobOutput" (JsonVal.obj props.jobFailureStatus)
    (setKey props.jobIdentifierKey idVal []))

/-- One execution of the state machine built by
`createProvisioningStateMachine`, on an incoming event with the given
`detail`, against a backend function mapping the `startLambda` payload to
the Lambda invocation result.  Publishing to the bus is modelled as
always succeeding (bus faults are outside the embedded control flow). -/
def handleEvent (props : ScriptJobProps) (detail : List (String × JsonVal))
    (backend : List (String × JsonVal) → LambdaResult) : ExecOutcome :=
  match buildPayload props detail with
  | none => ⟨false, [], true⟩
  | some payload =>
    match backend payload with
    | .rejected _ =>
      match buildFailureDetail props detail with
      | none => ⟨true, [], true⟩
      | some d =>
          ⟨true,
           [⟨props.outgoingEventFailure,
             lookupKey props.outgoingEventFailure props.supportedEvents, d⟩],
           false⟩
    | .resolved payloadVal =>
      match buildSuccessDetail props detail payloadVal with
      | none => ⟨true, [], true⟩
      | some d =>
          ⟨true,
           [⟨props.outgoingEventSuccess,
             lookupKey props.outgoingEventSuccess props.supportedEvents, d⟩],
           false⟩

/-- Environment configured on the Lambda function by
`createLambdaFunction`: an empty object onto which
`scriptEnvironmentVariables` (when given) is copied by `Object.assign`;
nothing event-derived ever enters it. -/
def lambdaFunctionEnvironment (props : ScriptJobProps) :
    List (String × String) :=
  props.scriptEnvironmentVariables

/-- Result of a `child_process.exec` call as delivered to its callback:
the `error` argument (truthy on non-zero exit or spawn failure) and the
captured `stdout` and `stderr` text. -/
structure ExecCbResult where
  failed : Bool
  stdout : String
  stderr : String

/-- The inline Lambda handler generated by `createLambdaFunction`: it
ignores its `event` argument entirely, runs the construction-time
`props.script` by `exec` in the function process environment, rejects
with `\x7berror: stderr\x7d` when `exec` reports an error, and resolves
with `\x7boutput: stdout\x7d` otherwise. -/
def inlineLambdaHandler (script : String)
    (exec : String → List (String × String) → ExecCbResult)
    (env : List (String × String))
    (_event : List (String × JsonVal)) : LambdaResult :=
  let r := exec script env
  if r.failed then .rejected r.stderr
  else .resolved (.obj [("output", .str r.stdout)])

/-- Timeout configured on the inline Lambda function, in minutes:
`cdk.Duration.minutes 15`; `none` would mean no timeout configured. -/
def lambdaFunctionTimeoutMinutes : Option Nat := some 15

/-- Timeout configured on the provisioning state machine, in minutes:
`cdk.Duration.hours 1`; `none` would mean no timeout configured. -/
def provisioningStateMachineTimeoutMinutes : Option Nat := some 60

/-- Configuration surface of the two tenant-lifecycle specializations
(the `TenantLifecycleLambdaScriptJobProps` fields the runtime behaviour
depends on). -/
structure TenantLifecycleLambdaScriptJobProps where
  script : String
  environmentStringVariablesFromIncomingEvent : List String
  environmentJSONVariablesFromIncomingEvent : List String
  environmentVariablesToOutgoingEvent : List String
  scriptEnvironmentVariables : List (String × String)
  supportedEvents : List (String × String)

/-- The fixed configuration of `ProvisioningLambdaScriptJob`. -/
def provisioningJobProps (p : TenantLifecycleLambdaScriptJobProps) :
    ScriptJobProps where
  jobIdentifierKey := "tenantId"
  script := p.script
  environmentStringVariablesFromIncomingEvent :=
    p.environmentStringVariablesFromIncomingEvent
  environmentJSONVariablesFromIncomingEvent :=
    p.environmentJSONVariablesFromIncomingEvent
  environmentVariablesToOutgoingEvent := p.environmentVariablesToOutgoingEvent
  scriptEnvironmentVariables := p.scriptEnvironmentVariables
  jobFailureStatus := [("tenantStatus", .str "Failed to provision tenant.")]
  incomingEvent := "onboardingRequest"
  outgoingEventSuccess := "provisionSuccess"
  outgoingEventFailure := "provisionFailure"
  supportedEvents := p.supportedEvents

/-- The fixed configuration of `DeprovisioningLambdaScriptJob`. -/
def deprovisioningJobProps (p : TenantLifecycleLambdaScriptJobProps) :
    ScriptJobProps where
  jobIdentifierKey := "tenantId"
  script := p.script
  environmentStringVariablesFromIncomingEvent :=
    p.environmentStringVariablesFromIncomingEvent
  environmentJSONVariablesFromIncomingEvent :=
    p.environmentJSONVariablesFromIncomingEvent
  environmentVariablesToOutgoingEvent := p.environmentVariablesToOutgoingEvent
  scriptEnvironmentVariables := p.scriptEnvironmentVariables
  jobFailureStatus := [("tenantStatus", .str "Failed to deprovision tenant.")]
  incomingEvent := "offboardingRequest"
  outgoingEventSuccess := "deprovisionSuccess"
  outgoingEventFailure := "deprovisionFailure"
  supportedEvents := p.supportedEvents

/-- Result of the docker tenantprov handler: either a success payload
`\x7boutput\x7d` or an error payload `\x7berror\x7d`. -/
inductive HandlerResult where
  | output : String → HandlerResult
  | error : String → HandlerResult
deriving DecidableEq, Repr

/-- Result of `util.promisify(exec)` on the saved script: rejection with
an `Error` whose message is the given string, or resolution with the
captured `stdout` and `stderr`. -/
inductive ExecAsyncResult where
  | throws : String → ExecAsyncResult
  | ok : String → String → ExecAsyncResult

/-- The default script substituted by the docker tenantprov handler when
the invocation event carries no (or a falsy) `script` field. -/
def defaultScript : String := "#!/bin/bash\necho \"No script provided!\""

/-- The script content the docker tenantprov handler runs: `event.script
|| <default>`; the only falsy string is the empty one. -/
def resolvedScript (eventScript : Option String) : String :=
  match eventScript with
  | none => defaultScript
  | some s => if s = "" then defaultScript else s

/-- The docker tenantprov handler (`docker/tenantprov/index.js`): write
the resolved script to a file (abstracted into `execAsync`), run it, turn
a rejection into `\x7berror: message\x7d` via the catch clause, turn any
non-empty `stderr` into a thrown-then-caught
`Script execution error: <stderr>` message, and return
`\x7boutput: stdout\x7d` only when `stderr` is empty. -/
def dockerTenantProvHandler (eventScript : Option String)
    (execAsync : String → ExecAsyncResult) : HandlerResult :=
  match execAsync (resolvedScript eventScript) with
  | .throws msg => .error msg
  | .ok stdout stderr =>
      if stderr = "" then .output stdout
      else .error ("Script execution error: " ++ stderr)

/-! Concrete fixtures used below to test the model on the scenarios of
the specification (scenario A and B of section 8) and on boundary
inputs. -/

/-- Provisioning job of scenario A: one incoming string variable and one
exported output variable. -/
def scenarioAProps : ScriptJobProps :=
  provisioningJobProps
    { script := "echo provisioning"
      environmentStringVariablesFromIncomingEvent := ["tier"]
      environmentJSONVariablesFromIncomingEvent := []
      environmentVariablesToOutgoingEvent := ["dbEndpoint"]
      scriptEnvironmentVariables := []
      supportedEvents :=
        [("provisionSuccess", "sbt-control-plane"),
         ("provisionFailure", "sbt-control-plane")] }

/-- Incoming detail of scenario A. -/
def scenarioADetail : List (String × JsonVal) :=
  [("tenantId", .str "t1"), ("tier", .str "premium")]

/-- Backend of scenario A: resolves with an output object carrying the
declared output variable. -/
def scenarioABackend : List (String × JsonVal) → LambdaResult :=
  fun _ => .resolved (.obj [("output", .obj [("dbEndpoint", .str "db.example.com")])])

/-- Backend of scenario B: the invocation fails with backend error text. -/
def scenarioBBackend : List (String × JsonVal) → LambdaResult :=
  fun _ => .rejected "permission denied"

/-- Provisioning job declaring one exported output variable and no
incoming variables. -/
def c1Props : ScriptJobProps :=
  provisioningJobProps
    { script := "echo provisioning"
      environmentStringVariablesFromIncomingEvent := []
      environmentJSONVariablesFromIncomingEvent := []
      environmentVariablesToOutgoingEvent := ["dbEndpoint"]
      scriptEnvironmentVariables := []
      supportedEvents :=
        [("provisionSuccess", "sbt-control-plane"),
         ("provisionFailure", "sbt-control-plane")] }

/-- Well-formed incoming detail: the identifier is present and no other
variable is declared. -/
def c1Detail : List (String × JsonVal) := [("tenantId", .str "tenant-1")]

/-- Backend resolving with an output object that lacks the declared
output variable. -/
def c1Backend : List (String × JsonVal) → LambdaResult :=
  fun _ => .resolved (.obj [("output", .obj [])])

/-- Provisioning job with no declared variables at all. -/
def c3Props : ScriptJobProps :=
  provisioningJobProps
    { script := "echo provisioning"
      environmentStringVariablesFromIncomingEvent := []
      environmentJSONVariablesFromIncomingEvent := []
      environmentVariablesToOutgoingEvent := []
      scriptEnvironmentVariables := []
      supportedEvents :=
        [("provisionSuccess", "sbt-app-plane"),
         ("provisionFailure", "sbt-app-plane")] }

/-- Incoming detail carrying only the identifier. -/
def c3Detail : List (String × JsonVal) := [("tenantId", .str "t3")]

/-- Backend RETURNING an error-shaped value as an ordinary resolved
payload (the docker tenantprov handler does exactly this on script
failure). -/
def c3ErrValueBackend : List (String × JsonVal) → LambdaResult :=
  fun _ => .resolved (.obj [("error", .str "permission denied")])

/-- Backend whose invocation raises. -/
def c3ThrowBackend : List (String × JsonVal) → LambdaResult :=
  fun _ => .rejected "boom"

/-- Provisioning job declaring one incoming string variable. -/
def c4Props : ScriptJobProps :=
  provisioningJobProps
    { script := "echo provisioning"
      environmentStringVariablesFromIncomingEvent := ["tier"]
      environmentJSONVariablesFromIncomingEvent := []
      environmentVariablesToOutgoingEvent := []
      scriptEnvironmentVariables := []
      supportedEvents :=
        [("provisionSuccess", "sbt-control-plane"),
         ("provisionFailure", "sbt-control-plane")] }

/-- Incoming detail carrying the declared variable but NOT the job
identifier. -/
def c4Detail : List (String × JsonVal) := [("tier", .str "basic")]

/-- Incoming detail carrying the job identifier but NOT the declared
variable. -/
def c4MissingVarDetail : List (String × JsonVal) := [("tenantId", .str "t4")]

/-- Backend resolving normally. -/
def c4Backend : List (String × JsonVal) → LambdaResult :=
  fun _ => .resolved (.obj [("output", .str "done")])

/-- Provisioning job declaring one exported output variable. -/
def c5Props : ScriptJobProps :=
  provisioningJobProps
    { script := "echo provisioning"
      environmentStringVariablesFromIncomingEvent := []
      environmentJSONVariablesFromIncomingEvent := []
      environmentVariablesToOutgoingEvent := ["dbEndpoint"]
      scriptEnvironmentVariables := []
      supportedEvents :=
        [("provisionSuccess", "sbt-app-plane"),
         ("provisionFailure", "sbt-app-plane")] }

/-- Incoming detail carrying only the identifier. -/
def c5Detail : List (String × JsonVal) := [("tenantId", .str "t5")]

/-- Backend resolving with an output object in which the declared output
variable is absent. -/
def c5Backend : List (String × JsonVal) → LambdaResult :=
  fun _ => .resolved (.obj [("output", .obj [("other", .str "x")])])

/-- Provisioning job declaring one incoming string variable and one
static script environment variable. -/
def c6Props : ScriptJobProps :=
  provisioningJobProps
    { script := "echo $tier"
      environmentStringVariablesFromIncomingEvent := ["tier"]
      environmentJSONVariablesFromIncomingEvent := []
      environmentVariablesToOutgoingEvent := []
      scriptEnvironmentVariables := [("STATIC_VAR", "static-value")]
      supportedEvents :=
        [("provisionSuccess", "sbt-control-plane"),
         ("provisionFailure", "sbt-control-plane")] }

/-- Incoming detail carrying the identifier and the declared variable. -/
def c6Detail : List (String × JsonVal) :=
  [("tenantId", .str "t1"), ("tier", .str "premium")]

/-- Deprovisioning job with no declared variables. -/
def c7Props : ScriptJobProps :=
  deprovisioningJobProps
    { script := "echo deprovisioning"
      environmentStringVariablesFromIncomingEvent := []
      environmentJSONVariablesFromIncomingEvent := []
      environmentVariablesToOutgoingEvent := []
      scriptEnvironmentVariables := []
      supportedEvents :=
        [("deprovisionSuccess", "sbt-control-plane"),
         ("deprovisionFailure", "sbt-control-plane")] }

/-- Incoming detail carrying only the identifier. -/
def c7Detail : List (String × JsonVal) := [("tenantId", .str "t7")]

/-- Provisioning job with no declared variables. -/
def c10Props : ScriptJobProps :=
  provisioningJobProps
    { script := "echo provisioning"
      environmentStringVariablesFromIncomingEvent := []
      environmentJSONVariablesFromIncomingEvent := []
      environmentVariablesToOutgoingEvent := []
      scriptEnvironmentVariables := []
      supportedEvents :=
        [("provisionSuccess", "sbt-control-plane"),
         ("provisionFailure", "sbt-control-plane")] }

/-- Incoming detail carrying only the identifier. -/
def c10Detail : List (String × JsonVal) := [("tenantId", .str "t10")]

/-- Backend resolving with a plain string output. -/
def c10Backend : List (String × JsonVal) → LambdaResult :=
  fun _ => .resolved (.obj [("output", .str "ok")])

/-! Helper lemmas about the key-value object operations and the
option-valued folds of the model. -/

theorem lookupKey_setKey {β : Type} (n k : String) (v : β)
    (l : List (String × β)) :
    lookupKey n (setKey k v l) = if n = k then some v else lookupKey n l := by
  induction l with
  | nil =>
      by_cases h : n = k
      · simp [setKey, lookupKey, h]
      · simp [setKey, lookupKey, h, Ne.symm h]
  | cons p rest ih =>
      obtain ⟨k', w⟩ := p
      by_cases hk : k' = k
      · subst hk
        by_cases hn : n = k'
        · simp [setKey, lookupKey, hn]
        · simp [setKey, lookupKey, hn, Ne.symm hn]
      · by_cases hn : k' = n
        · subst hn
          simp [setKey, lookupKey, hk]
        · simp [setKey, lookupKey, hk, hn, ih]

theorem setKey_pair {β : Type} (k1 k2 : String) (v1 v2 : β) (h : k1 ≠ k2) :
    setKey k2 v2 (setKey k1 v1 []) = [(k1, v1), (k2, v2)] := by
  simp [setKey, h]

theorem foldlM_option_eq_none {α β : Type} (f : β → α → Option β) (a : α)
    (h : ∀ acc, f acc a = none) :
    ∀ (l : List α), a ∈ l → ∀ init, l.foldlM f init = none := by
  intro l
  induction l with
  | nil => intro ha; cases ha
  | cons b bs ih =>
      intro ha init
      rw [List.foldlM_cons]
      rcases List.mem_cons.mp ha with rfl | hmem
      · rw [h init]; rfl
      · cases hfb : f init b with
        | none => rfl
        | some acc =>
            simpa using ih hmem acc

theorem foldlM_addOutputVar_lookup (payload : JsonVal) :
    ∀ (l : List String) (acc r : List (String × JsonVal)),
      l.foldlM (addOutputVar payload) acc = some r →
      ∀ n, lookupKey n r =
        if n ∈ l then lookupOutputVar payload n else lookupKey n acc := by
  intro l
  induction l with
  | nil =>
      intro acc r hr n
      rw [List.foldlM_nil] at hr
      cases hr
      simp
  | cons b bs ih =>
      intro acc r hr n
      rw [List.foldlM_cons] at hr
      cases hfb : addOutputVar payload acc b with
      | none => rw [hfb] at hr; cases hr
      | some acc' =>
          rw [hfb] at hr
          have hr' : bs.foldlM (addOutputVar payload) acc' = some r := hr
          have hchar := ih acc' r hr' n
          unfold addOutputVar at hfb
          cases hw : lookupOutputVar payload b with
          | none => rw [hw] at hfb; cases hfb
          | some w =>
              rw [hw] at hfb
              simp only [Option.map_some'] at hfb
              cases hfb
              rw [hchar]
              by_cases hmem : n ∈ bs
              · simp [hmem, List.mem_cons]
              · by_cases hnb : n = b
                · subst hnb
                  simp [hmem, lookupKey_setKey, hw]
                · simp [hmem, hnb, lookupKey_setKey]

/-! Helper lemmas about the state-machine execution function. -/

theorem buildFailureDetail_some (props : ScriptJobProps)
    (detail : List (String × JsonVal)) (idVal : JsonVal)
    (hid : lookupKey props.jobIdentifierKey detail = some idVal) :
    buildFailureDetail props detail =
      some (setKey "jobOutput" (JsonVal.obj props.jobFailureStatus)
        (setKey props.jobIdentifierKey idVal [])) := by
  simp [buildFailureDetail, hid]

theorem buildFailureDetail_none (props : ScriptJobProps)
    (detail : List (String × JsonVal))
    (hid : lookupKey props.jobIdentifierKey detail = none) :
    buildFailureDetail props detail = none := by
  simp [buildFailureDetail, hid]

theorem buildSuccessDetail_some (props : ScriptJobProps)
    (detail : List (String × JsonVal)) (v idVal : JsonVal)
    (jobOut : List (String × JsonVal))
    (hid : lookupKey props.jobIdentifierKey detail = some idVal)
    (hfold : props.environmentVariablesToOutgoingEvent.foldlM
      (addOutputVar v) [] = some jobOut) :
    buildSuccessDetail props detail v =
      some (setKey "jobOutput" (JsonVal.obj jobOut)
        (setKey props.jobIdentifierKey idVal [])) := by
  simp [buildSuccessDetail, hid, hfold]

theorem buildSuccessDetail_none_of_noId (props : ScriptJobProps)
    (detail : List (String × JsonVal)) (v : JsonVal)
    (hid : lookupKey props.jobIdentifierKey detail = none) :
    buildSuccessDetail props detail v = none := by
  simp [buildSuccessDetail, hid]

theorem buildSuccessDetail_none_of_fold_none (props : ScriptJobProps)
    (detail : List (String × JsonVal)) (v : JsonVal)
    (hfold : props.environmentVariablesToOutgoingEvent.foldlM
      (addOutputVar v) [] = none) :
    buildSuccessDetail props detail v = none := by
  cases hid : lookupKey props.jobIdentifierKey detail with
  | none => simp [buildSuccessDetail, hid]
  | some idVal => simp [buildSuccessDetail, hid, hfold]

theorem handleEvent_payload_none (props : ScriptJobProps)
    (detail : List (String × JsonVal))
    (backend : List (String × JsonVal) → LambdaResult)
    (hpay : buildPayload props detail = none) :
    handleEvent props detail backend = ⟨false, [], true⟩ := by
  unfold handleEvent
  rw [hpay]

theorem handleEvent_rejected (props : ScriptJobProps)
    (detail payload : List (String × JsonVal))
    (backend : List (String × JsonVal) → LambdaResult)
    (err : String) (idVal : JsonVal)
    (hpay : buildPayload props detail = some payload)
    (hrej : backend payload = LambdaResult.rejected err)
    (hid : lookupKey props.jobIdentifierKey detail = some idVal) :
    handleEvent props detail backend =
      ⟨true,
       [⟨props.outgoingEventFailure,
         lookupKey props.outgoingEventFailure props.supportedEvents,
         setKey "jobOutput" (JsonVal.obj props.jobFailureStatus)
           (setKey props.jobIdentifierKey idVal [])⟩],
       false⟩ := by
  simp only [handleEvent, hpay, hrej,
    buildFailureDetail_some props detail idVal hid]

theorem handleEvent_rejected_noId (props : ScriptJobProps)
    (detail payload : List (String × JsonVal))
    (backend : List (String × JsonVal) → LambdaResult) (err : String)
    (hpay : buildPayload props detail = some payload)
    (hrej : backend payload = LambdaResult.rejected err)
    (hid : lookupKey props.jobIdentifierKey detail = none) :
    handleEvent props detail backend = ⟨true, [], true⟩ := by
  simp only [handleEvent, hpay, hrej, buildFailureDetail_none props detail hid]

theorem handleEvent_resolved (props : ScriptJobProps)
    (detail payload : List (String × JsonVal))
    (backend : List (String × JsonVal) → LambdaResult)
    (v idVal : JsonVal) (jobOut : List (String × JsonVal))
    (hpay : buildPayload props detail = some payload)
    (hres : backend payload = LambdaResult.resolved v)
    (hid : lookupKey props.jobIdentifierKey detail = some idVal)
    (hfold : props.environmentVariablesToOutgoingEvent.foldlM
      (addOutputVar v) [] = some jobOut) :
    handleEvent props detail backend =
      ⟨true,
       [⟨props.outgoingEventSuccess,
         lookupKey props.outgoingEventSuccess props.supportedEvents,
         setKey "jobOutput" (JsonVal.obj jobOut)
           (setKey props.jobIdentifierKey idVal [])⟩],
       false⟩ := by
  simp only [handleEvent, hpay, hres,
    buildSuccessDetail_some props detail v idVal jobOut hid hfold]

theorem handleEvent_resolved_none (props : ScriptJobProps)
    (detail payload : List (String × JsonVal))
    (backend : List (String × JsonVal) → LambdaResult) (v : JsonVal)
    (hpay : buildPayload props detail = some payload)
    (hres : backend payload = LambdaResult.resolved v)
    (hnone : buildSuccessDetail props detail v = none) :
    handleEvent props detail backend = ⟨true, [], true⟩ := by
  simp only [handleEvent, hpay, hres, hnone]

theorem buildPayload_none_of_missing (props : ScriptJobProps)
    (detail : List (String × JsonVal)) (name : String)
    (hmem : name ∈ props.environmentStringVariablesFromIncomingEvent ∨
            name ∈ props.environmentJSONVariablesFromIncomingEvent)
    (hmiss : lookupKey name detail = none) :
    buildPayload props detail = none := by
  unfold buildPayload
  rcases hmem with hs | hj
  · rw [foldlM_option_eq_none (addStringVar detail) name
        (fun acc => by simp [addStringVar, hmiss]) _ hs []]
    rfl
  · cases hfold : props.environmentStringVariablesFromIncomingEvent.foldlM
        (addStringVar detail) [] with
    | none => rfl
    | some acc =>
        exact foldlM_option_eq_none (addJsonVar detail) name
          (fun acc' => by simp [addJsonVar, hmiss]) _ hj acc

theorem handleEvent_resolved_detail (props : ScriptJobProps)
    (detail payload : List (String × JsonVal))
    (backend : List (String × JsonVal) → LambdaResult) (v : JsonVal)
    (d : List (String × JsonVal))
    (hpay : buildPayload props detail = some payload)
    (hres : backend payload = LambdaResult.resolved v)
    (hsd : buildSuccessDetail props detail v = some d) :
    handleEvent props detail backend =
      ⟨true,
       [⟨props.outgoingEventSuccess,
         lookupKey props.outgoingEventSuccess props.supportedEvents, d⟩],
       false⟩ := by
  simp only [handleEvent, hpay, hres, hsd]

theorem outgoingDetail_shape (k : String) (idVal : JsonVal)
    (o : List (String × JsonVal)) (h : k ≠ "jobOutput") :
    (setKey "jobOutput" (JsonVal.obj o) (setKey k idVal [])).map Prod.fst =
      [k, "jobOutput"] ∧
    lookupKey k (setKey "jobOutput" (JsonVal.obj o) (setKey k idVal [])) =
      some idVal ∧
    lookupKey "jobOutput"
      (setKey "jobOutput" (JsonVal.obj o) (setKey k idVal [])) =
      some (JsonVal.obj o) := by
  rw [setKey_pair k "jobOutput" idVal (JsonVal.obj o) h]
  refine ⟨rfl, ?_, ?_⟩
  · simp [lookupKey]
  · simp [lookupKey, h]

/-! Claims. -/

/-- Claim C1 counterexample: a well-formed incoming event (its detail
carries the job identifier; no incoming variable is declared) on which
handling publishes ZERO outgoing events with no bus fault: the backend
resolves, the declared output variable is absent from its payload, the
success-notify resolution fails, and the execution dies silently. -/
theorem C1_counterexample :
    lookupKey "tenantId" c1Detail = some (JsonVal.str "tenant-1") ∧
    buildPayload c1Props c1Detail = some [] ∧
    (handleEvent c1Props c1Detail c1Backend).published = [] :=
  ⟨rfl, rfl, rfl⟩

/-- Claim C1 amended: at most one outgoing event is ever published; and
exactly one is published, of the success or failure kind, when the event
is well formed AND either the backend call fails, or it resolves with a
payload on which every declared output variable resolves. -/
theorem C1_amended (props : ScriptJobProps) (detail : List (String × JsonVal))
    (backend : List (String × JsonVal) → LambdaResult) :
    (handleEvent props detail backend).published.length ≤ 1 ∧
    (∀ (payload : List (String × JsonVal)) (idVal : JsonVal) (err : String),
      buildPayload props detail = some payload →
      lookupKey props.jobIdentifierKey detail = some idVal →
      backend payload = LambdaResult.rejected err →
      ((handleEvent props detail backend).published.length = 1 ∧
       ∀ e ∈ (handleEvent props detail backend).published,
         e.detailType = props.outgoingEventFailure)) ∧
    (∀ (payload : List (String × JsonVal)) (idVal : JsonVal) (v : JsonVal)
       (jobOut : List (String × JsonVal)),
      buildPayload props detail = some payload →
      lookupKey props.jobIdentifierKey detail = some idVal →
      backend payload = LambdaResult.resolved v →
      props.environmentVariablesToOutgoingEvent.foldlM (addOutputVar v) [] =
        some jobOut →
      ((handleEvent props detail backend).published.length = 1 ∧
       ∀ e ∈ (handleEvent props detail backend).published,
         e.detailType = props.outgoingEventSuccess)) := by
  refine ⟨?_, ?_, ?_⟩
  · cases hp : buildPayload props detail with
    | none => simp [handleEvent_payload_none props detail backend hp]
    | some payload =>
        cases hb : backend payload with
        | rejected err =>
            cases hid : lookupKey props.jobIdentifierKey detail with
            | none =>
                simp [handleEvent_rejected_noId props detail payload backend
                  err hp hb hid]
            | some idVal =>
                simp [handleEvent_rejected props detail payload backend err
                  idVal hp hb hid]
        | resolved v =>
            cases hsd : buildSuccessDetail props detail v with
            | none =>
                simp [handleEvent_resolved_none props detail payload backend
                  v hp hb hsd]
            | some d =>
                simp [handleEvent_resolved_detail props detail payload backend
                  v d hp hb hsd]
  · intro payload idVal err hpay hid hrej
    rw [handleEvent_rejected props detail payload backend err idVal hpay hrej hid]
    refine ⟨rfl, ?_⟩
    intro e he
    rw [List.mem_singleton] at he
    subst he
    rfl
  · intro payload idVal v jobOut hpay hid hres hfold
    rw [handleEvent_resolved props detail payload backend v idVal jobOut hpay
      hres hid hfold]
    refine ⟨rfl, ?_⟩
    intro e he
    rw [List.mem_singleton] at he
    subst he
    rfl

/-- Claim C1 witness: the amended theorem applied to scenario A of the
specification, where all output variables resolve. -/
theorem C1_amended_witness :
    (handleEvent scenarioAProps scenarioADetail scenarioABackend).published.length = 1 :=
  ((C1_amended scenarioAProps scenarioADetail scenarioABackend).2.2
    [("tier", JsonVal.str "premium")] (JsonVal.str "t1")
    (JsonVal.obj [("output", JsonVal.obj [("dbEndpoint", JsonVal.str "db.example.com")])])
    [("dbEndpoint", JsonVal.str "db.example.com")] rfl rfl rfl rfl).1

/-- Claim C2: when the backend invocation fails, any outgoing event is of
the configured failure kind and carries jobOutput equal to the configured
jobFailureStatus, independent of the backend error text; when the
incoming detail carries the job identifier, exactly that one failure
event is published. -/
theorem C2_failure_payload_fixed (props : ScriptJobProps)
    (detail payload : List (String × JsonVal))
    (backend : List (String × JsonVal) → LambdaResult) (err : String)
    (hpay : buildPayload props detail = some payload)
    (hrej : backend payload = LambdaResult.rejected err) :
    (∀ e ∈ (handleEvent props detail backend).published,
      e.detailType = props.outgoingEventFailure ∧
      lookupKey "jobOutput" e.detail = some (JsonVal.obj props.jobFailureStatus)) ∧
    (∀ idVal, lookupKey props.jobIdentifierKey detail = some idVal →
      (handleEvent props detail backend).published =
        [⟨props.outgoingEventFailure,
          lookupKey props.outgoingEventFailure props.supportedEvents,
          setKey "jobOutput" (JsonVal.obj props.jobFailureStatus)
            (setKey props.jobIdentifierKey idVal [])⟩]) := by
  constructor
  · intro e he
    cases hid : lookupKey props.jobIdentifierKey detail with
    | none =>
        rw [handleEvent_rejected_noId props detail payload backend err hpay hrej hid] at he
        exact absurd he (List.not_mem_nil e)
    | some idVal =>
        rw [handleEvent_rejected props detail payload backend err idVal hpay hrej hid] at he
        rw [List.mem_singleton] at he
        subst he
        refine ⟨rfl, ?_⟩
        rw [lookupKey_setKey]
        simp
  · intro idVal hid
    rw [handleEvent_rejected props detail payload backend err idVal hpay hrej hid]

/-- Claim C2 witness: scenario B of the specification. -/
theorem C2_failure_payload_fixed_witness :
    (handleEvent scenarioAProps scenarioADetail scenarioBBackend).published =
      [⟨"provisionFailure", some "sbt-control-plane",
        [("tenantId", JsonVal.str "t1"),
         ("jobOutput", JsonVal.obj
           [("tenantStatus", JsonVal.str "Failed to provision tenant.")])]⟩] :=
  (C2_failure_payload_fixed scenarioAProps scenarioADetail
      [("tier", JsonVal.str "premium")] scenarioBBackend "permission denied"
      rfl rfl).2 (JsonVal.str "t1") rfl

/-- Claim C3 counterexample: a backend that RETURNS an error-shaped value
as its ordinary resolved payload does not take the failure branch; with
no declared output variables the engine publishes the SUCCESS event. -/
theorem C3_counterexample :
    (handleEvent c3Props c3Detail c3ErrValueBackend).published =
      [⟨"provisionSuccess", some "sbt-app-plane",
        [("tenantId", JsonVal.str "t3"), ("jobOutput", JsonVal.obj [])]⟩] :=
  rfl

/-- Claim C3 amended: the failure branch runs exactly when the backend
call raises or the invocation fails; an error-shaped value returned as a
normally resolved payload is treated as success and flows to the
success-notify task (every published event is then the success kind). -/
theorem C3_amended (props : ScriptJobProps)
    (detail payload : List (String × JsonVal))
    (backend : List (String × JsonVal) → LambdaResult)
    (hpay : buildPayload props detail = some payload) :
    (∀ (err : String) (idVal : JsonVal),
      backend payload = LambdaResult.rejected err →
      lookupKey props.jobIdentifierKey detail = some idVal →
      (handleEvent props detail backend).published =
        [⟨props.outgoingEventFailure,
          lookupKey props.outgoingEventFailure props.supportedEvents,
          setKey "jobOutput" (JsonVal.obj props.jobFailureStatus)
            (setKey props.jobIdentifierKey idVal [])⟩]) ∧
    (∀ v : JsonVal, backend payload = LambdaResult.resolved v →
      ∀ e ∈ (handleEvent props detail backend).published,
        e.detailType = props.outgoingEventSuccess) := by
  constructor
  · intro err idVal hrej hid
    rw [handleEvent_rejected props detail payload backend err idVal hpay hrej hid]
  · intro v hres e he
    cases hsd : buildSuccessDetail props detail v with
    | none =>
        rw [handleEvent_resolved_none props detail payload backend v hpay
          hres hsd] at he
        exact absurd he (List.not_mem_nil e)
    | some d =>
        rw [handleEvent_resolved_detail props detail payload backend v d hpay
          hres hsd] at he
        rw [List.mem_singleton] at he
        subst he
        rfl

/-- Claim C3 witness: a backend whose invocation raises does take the
failure branch. -/
theorem C3_amended_witness :
    (handleEvent c3Props c3Detail c3ThrowBackend).published =
      [⟨"provisionFailure", some "sbt-app-plane",
        [("tenantId", JsonVal.str "t3"),
         ("jobOutput", JsonVal.obj
           [("tenantStatus", JsonVal.str "Failed to provision tenant.")])]⟩] :=
  (C3_amended c3Props c3Detail [] c3ThrowBackend rfl).1 "boom"
    (JsonVal.str "t3") rfl rfl

/-- Claim C4 counterexample: an incoming event missing only the job
identifier, with every declared variable present, still invokes the
backend, refuting the claimed rejection before backend invocation. -/
theorem C4_counterexample :
    lookupKey "tenantId" c4Detail = none ∧
    (handleEvent c4Props c4Detail c4Backend).backendInvoked = true ∧
    (handleEvent c4Props c4Detail c4Backend).published = [] :=
  ⟨rfl, rfl, rfl⟩

/-- Claim C4 amended: an event missing a declared string or JSON
variable is dropped before the backend runs with no outgoing event; an
event missing only the job identifier does invoke the backend, and then
no outgoing event is published either. -/
theorem C4_amended :
    (∀ (props : ScriptJobProps) (detail : List (String × JsonVal))
       (backend : List (String × JsonVal) → LambdaResult) (name : String),
      (name ∈ props.environmentStringVariablesFromIncomingEvent ∨
       name ∈ props.environmentJSONVariablesFromIncomingEvent) →
      lookupKey name detail = none →
      ((handleEvent props detail backend).backendInvoked = false ∧
       (handleEvent props detail backend).published = [])) ∧
    (∀ (props : ScriptJobProps) (detail payload : List (String × JsonVal))
       (backend : List (String × JsonVal) → LambdaResult),
      buildPayload props detail = some payload →
      lookupKey props.jobIdentifierKey detail = none →
      ((handleEvent props detail backend).backendInvoked = true ∧
       (handleEvent props detail backend).published = [])) := by
  constructor
  · intro props detail backend name hmem hmiss
    rw [handleEvent_payload_none props detail backend
      (buildPayload_none_of_missing props detail name hmem hmiss)]
    exact ⟨rfl, rfl⟩
  · intro props detail payload backend hpay hid
    cases hb : backend payload with
    | rejected err =>
        rw [handleEvent_rejected_noId props detail payload backend err hpay
          hb hid]
        exact ⟨rfl, rfl⟩
    | resolved v =>
        rw [handleEvent_resolved_none props detail payload backend v hpay hb
          (buildSuccessDetail_none_of_noId props detail v hid)]
        exact ⟨rfl, rfl⟩

/-- Claim C4 witness: an event missing the declared variable tier is
dropped with no backend invocation and no outgoing event. -/
theorem C4_amended_witness :
    (handleEvent c4Props c4MissingVarDetail c4Backend).backendInvoked = false ∧
    (handleEvent c4Props c4MissingVarDetail c4Backend).published = [] :=
  C4_amended.1 c4Props c4MissingVarDetail c4Backend "tier"
    (Or.inl (by decide)) rfl

/-- Claim C5 counterexample: the backend resolves with an output object
lacking the declared output variable; the claim says the name is simply
omitted from jobOutput, but the engine publishes nothing and the
execution fails. -/
theorem C5_counterexample :
    lookupOutputVar
      (JsonVal.obj [("output", JsonVal.obj [("other", JsonVal.str "x")])])
      "dbEndpoint" = none ∧
    (handleEvent c5Props c5Detail c5Backend).published = [] ∧
    (handleEvent c5Props c5Detail c5Backend).executionFailed = true :=
  ⟨rfl, rfl, rfl⟩

/-- Claim C5 amended: on backend success the success event carries a
jobOutput holding exactly the declared output names (looked up in the
resolved payload, no others); the engine does NOT tolerate an absent
declared output name - any such absence kills the execution and no event
is published. -/
theorem C5_amended (props : ScriptJobProps)
    (detail payload : List (String × JsonVal))
    (backend : List (String × JsonVal) → LambdaResult) (v idVal : JsonVal)
    (hpay : buildPayload props detail = some payload)
    (hres : backend payload = LambdaResult.resolved v)
    (hid : lookupKey props.jobIdentifierKey detail = some idVal) :
    (∀ jobOut : List (String × JsonVal),
      props.environmentVariablesToOutgoingEvent.foldlM (addOutputVar v) [] =
        some jobOut →
      ((handleEvent props detail backend).published =
        [⟨props.outgoingEventSuccess,
          lookupKey props.outgoingEventSuccess props.supportedEvents,
          setKey "jobOutput" (JsonVal.obj jobOut)
            (setKey props.jobIdentifierKey idVal [])⟩] ∧
       ∀ n, lookupKey n jobOut =
         if n ∈ props.environmentVariablesToOutgoingEvent
         then lookupOutputVar v n else none)) ∧
    (∀ name ∈ props.environmentVariablesToOutgoingEvent,
      lookupOutputVar v name = none →
      (handleEvent props detail backend).published = []) := by
  constructor
  · intro jobOut hfold
    constructor
    · rw [handleEvent_resolved props detail payload backend v idVal jobOut
        hpay hres hid hfold]
    · intro n
      exact foldlM_addOutputVar_lookup v
        props.environmentVariablesToOutgoingEvent [] jobOut hfold n
  · intro name hname hmiss
    have hfold : props.environmentVariablesToOutgoingEvent.foldlM
        (addOutputVar v) [] = none :=
      foldlM_option_eq_none (addOutputVar v) name
        (fun acc => by simp [addOutputVar, hmiss]) _ hname []
    rw [handleEvent_resolved_none props detail payload backend v hpay hres
      (buildSuccessDetail_none_of_fold_none props detail v hfold)]

/-- Claim C5 witness: scenario A, in which the declared output variable
is present in the resolved payload. -/
theorem C5_amended_witness :
    (handleEvent scenarioAProps scenarioADetail scenarioABackend).published =
      [⟨"provisionSuccess", some "sbt-control-plane",
        [("tenantId", JsonVal.str "t1"),
         ("jobOutput", JsonVal.obj
           [("dbEndpoint", JsonVal.str "db.example.com")])]⟩] :=
  ((C5_amended scenarioAProps scenarioADetail [("tier", JsonVal.str "premium")]
      scenarioABackend
      (JsonVal.obj [("output", JsonVal.obj
        [("dbEndpoint", JsonVal.str "db.example.com")])])
      (JsonVal.str "t1") rfl rfl rfl).1
    [("dbEndpoint", JsonVal.str "db.example.com")] rfl).1

/-- Claim C6 (code-bug evidence): on a job declaring the incoming string
variable tier, the event-derived value reaches only the invocation
payload of the Lambda; the environment configured on the function holds
the static scriptEnvironmentVariables alone, and the generated inline
handler ignores its event argument entirely, so the executed script can
never observe an event-derived variable and no static entry is ever
overridden. -/
theorem C6_script_env_never_sees_event_vars :
    buildPayload c6Props c6Detail = some [("tier", JsonVal.str "premium")] ∧
    lambdaFunctionEnvironment c6Props = [("STATIC_VAR", "static-value")] ∧
    containsKey "tier" (lambdaFunctionEnvironment c6Props) = false ∧
    (∀ (exec : String → List (String × String) → ExecCbResult)
       (ev₁ ev₂ : List (String × JsonVal)),
      inlineLambdaHandler c6Props.script exec
        (lambdaFunctionEnvironment c6Props) ev₁ =
      inlineLambdaHandler c6Props.script exec
        (lambdaFunctionEnvironment c6Props) ev₂) :=
  ⟨rfl, rfl, rfl, fun _ _ _ => rfl⟩

/-- Claim C7 counterexample: the engine does configure timeouts of its
own - one hour on the state machine and fifteen minutes on the Lambda
function - refuting the claim that it imposes none. -/
theorem C7_counterexample :
    provisioningStateMachineTimeoutMinutes = some 60 ∧
    lambdaFunctionTimeoutMinutes = some 15 :=
  ⟨rfl, rfl⟩

/-- Claim C7 amended: the engine sets a 60-minute state-machine timeout
and a 15-minute Lambda timeout; a timeout of the Lambda task surfaces as
a failed invocation, which the States.ALL catch routes to the ordinary
failure-event path. -/
theorem C7_amended :
    provisioningStateMachineTimeoutMinutes = some 60 ∧
    lambdaFunctionTimeoutMinutes = some 15 ∧
    (∀ (props : ScriptJobProps) (detail payload : List (String × JsonVal))
       (idVal : JsonVal),
      buildPayload props detail = some payload →
      lookupKey props.jobIdentifierKey detail = some idVal →
      (handleEvent props detail
        (fun _ => LambdaResult.rejected "States.Timeout")).published =
        [⟨props.outgoingEventFailure,
          lookupKey props.outgoingEventFailure props.supportedEvents,
          setKey "jobOutput" (JsonVal.obj props.jobFailureStatus)
            (setKey props.jobIdentifierKey idVal [])⟩]) := by
  refine ⟨rfl, rfl, ?_⟩
  intro props detail payload idVal hpay hid
  rw [handleEvent_rejected props detail payload _ "States.Timeout" idVal
    hpay rfl hid]

/-- Claim C7 witness: a timed-out Lambda task on the deprovisioning job
yields exactly the fixed failure event. -/
theorem C7_amended_witness :
    (handleEvent c7Props c7Detail
      (fun _ => LambdaResult.rejected "States.Timeout")).published =
      [⟨"deprovisionFailure", some "sbt-control-plane",
        [("tenantId", JsonVal.str "t7"),
         ("jobOutput", JsonVal.obj
           [("tenantStatus", JsonVal.str "Failed to deprovision tenant.")])]⟩] :=
  C7_amended.2.2 c7Props c7Detail [] (JsonVal.str "t7") rfl rfl

/-- Claim C8: the docker tenantprov handler turns any resolved exec
result with non-empty stderr into an error result (execAsync resolves
only on exit status zero, so this covers exit zero with stdout present),
returns the output result exactly when stderr is empty, and maps a
rejected exec into an error result carrying its message. -/
theorem C8_stderr_treated_as_failure :
    (∀ (s : Option String) (out err : String),
      dockerTenantProvHandler s (fun _ => ExecAsyncResult.ok out err) =
        if err = "" then HandlerResult.output out
        else HandlerResult.error ("Script execution error: " ++ err)) ∧
    (∀ (s : Option String) (msg : String),
      dockerTenantProvHandler s (fun _ => ExecAsyncResult.throws msg) =
        HandlerResult.error msg) :=
  ⟨fun _ _ _ => rfl, fun _ _ => rfl⟩

/-- Claim C9: with no script field, or an empty (falsy) one, the docker
tenantprov handler substitutes the default echo script; given that
running that script writes its message to stdout and nothing to stderr,
the handler returns a success output carrying the message. -/
theorem C9_default_script_success (execAsync : String → ExecAsyncResult)
    (h : execAsync defaultScript =
      ExecAsyncResult.ok "No script provided!\n" "") :
    resolvedScript none = defaultScript ∧
    resolvedScript (some "") = defaultScript ∧
    dockerTenantProvHandler none execAsync =
      HandlerResult.output "No script provided!\n" ∧
    dockerTenantProvHandler (some "") execAsync =
      HandlerResult.output "No script provided!\n" := by
  refine ⟨rfl, rfl, ?_, ?_⟩ <;>
    simp [dockerTenantProvHandler, resolvedScript, h]

/-- Claim C9 witness: the theorem at a concrete exec function. -/
theorem C9_default_script_success_witness :
    dockerTenantProvHandler none
      (fun _ => ExecAsyncResult.ok "No script provided!\n" "") =
      HandlerResult.output "No script provided!\n" :=
  (C9_default_script_success
    (fun _ => ExecAsyncResult.ok "No script provided!\n" "") rfl).2.2.1

/-- Claim C10: every published event detail has exactly the two
top-level keys jobIdentifierKey and jobOutput (for any configuration not
naming the identifier key jobOutput), the identifier value passes
through from the incoming detail, jobOutput is always an object, and on
success with no declared output variables it is the empty object. -/
theorem C10_outgoing_detail_shape :
    (∀ (props : ScriptJobProps) (detail : List (String × JsonVal))
       (backend : List (String × JsonVal) → LambdaResult) (e : OutgoingEvent),
      props.jobIdentifierKey ≠ "jobOutput" →
      e ∈ (handleEvent props detail backend).published →
      (e.detail.map Prod.fst = [props.jobIdentifierKey, "jobOutput"] ∧
       lookupKey props.jobIdentifierKey e.detail =
         lookupKey props.jobIdentifierKey detail ∧
       ∃ o, lookupKey "jobOutput" e.detail = some (JsonVal.obj o))) ∧
    (∀ (props : ScriptJobProps) (detail payload : List (String × JsonVal))
       (backend : List (String × JsonVal) → LambdaResult) (v idVal : JsonVal),
      props.environmentVariablesToOutgoingEvent = [] →
      props.jobIdentifierKey ≠ "jobOutput" →
      buildPayload props detail = some payload →
      backend payload = LambdaResult.resolved v →
      lookupKey props.jobIdentifierKey detail = some idVal →
      (handleEvent props detail backend).published =
        [⟨props.outgoingEventSuccess,
          lookupKey props.outgoingEventSuccess props.supportedEvents,
          [(props.jobIdentifierKey, idVal), ("jobOutput", JsonVal.obj [])]⟩]) := by
  constructor
  · intro props detail backend e hne he
    cases hp : buildPayload props detail with
    | none =>
        rw [handleEvent_payload_none props detail backend hp] at he
        exact absurd he (List.not_mem_nil e)
    | some payload =>
        cases hb : backend payload with
        | rejected err =>
            cases hid : lookupKey props.jobIdentifierKey detail with
            | none =>
                rw [handleEvent_rejected_noId props detail payload backend
                  err hp hb hid] at he
                exact absurd he (List.not_mem_nil e)
            | some idVal =>
                rw [handleEvent_rejected props detail payload backend err
                  idVal hp hb hid] at he
                rw [List.mem_singleton] at he
                subst he
                obtain ⟨h1, h2, h3⟩ :=
                  outgoingDetail_shape props.jobIdentifierKey idVal
                    props.jobFailureStatus hne
                exact ⟨h1, by rw [h2], ⟨props.jobFailureStatus, h3⟩⟩
        | resolved v =>
            cases hid : lookupKey props.jobIdentifierKey detail with
            | none =>
                rw [handleEvent_resolved_none props detail payload backend v
                  hp hb (buildSuccessDetail_none_of_noId props detail v hid)] at he
                exact absurd he (List.not_mem_nil e)
            | some idVal =>
                cases hfold : props.environmentVariablesToOutgoingEvent.foldlM
                    (addOutputVar v) [] with
                | none =>
                    rw [handleEvent_resolved_none props detail payload backend
                      v hp hb (buildSuccessDetail_none_of_fold_none props
                        detail v hfold)] at he
                    exact absurd he (List.not_mem_nil e)
                | some jobOut =>
                    rw [handleEvent_resolved props detail payload backend v
                      idVal jobOut hp hb hid hfold] at he
                    rw [List.mem_singleton] at he
                    subst he
                    obtain ⟨h1, h2, h3⟩ :=
                      outgoingDetail_shape props.jobIdentifierKey idVal
                        jobOut hne
                    exact ⟨h1, by rw [h2], ⟨jobOut, h3⟩⟩
  · intro props detail payload backend v idVal hout hne hpay hres hid
    have hfold : props.environmentVariablesToOutgoingEvent.foldlM
        (addOutputVar v) [] = some [] := by
      rw [hout]
      rfl
    rw [handleEvent_resolved props detail payload backend v idVal [] hpay
      hres hid hfold]
    rw [setKey_pair props.jobIdentifierKey "jobOutput" idVal
      (JsonVal.obj []) hne]

/-- Claim C10 witness: a success with no declared output variables
yields the two-key detail with an empty jobOutput object. -/
theorem C10_outgoing_detail_shape_witness :
    (handleEvent c10Props c10Detail c10Backend).published =
      [⟨"provisionSuccess", some "sbt-control-plane",
        [("tenantId", JsonVal.str "t10"), ("jobOutput", JsonVal.obj [])]⟩] :=
  C10_outgoing_detail_shape.2 c10Props c10Detail [] c10Backend
    (JsonVal.obj [("output", JsonVal.str "ok")]) (JsonVal.str "t10")
    rfl (by decide) rfl rfl rfl
